import Mathlib

/-!
Verification of the Samsung SLSI Wi-Fi HAL dispatch layer (wifi_hal.cpp).

The definitions below are a shallow embedding of the C++ source: each
fallible external effect (socket creation, generic-netlink resolution,
request/response results, poll results) is passed in explicitly, and the
control flow of every embedded function follows the source line by line.
Machine integers are modelled as `Int`/`Nat` with explicit `% 2^32`
where 32-bit overflow matters.
-/

namespace WifiHal

/-- Constant `WIFI_SUCCESS` from wifi_hal.h (AOSP standard value 0). -/
def WIFI_SUCCESS : Int := 0

/-- Constant `WIFI_ERROR_UNKNOWN` from wifi_hal.h. -/
def WIFI_ERROR_UNKNOWN : Int := -1

/-- Constant `WIFI_ERROR_OUT_OF_MEMORY` from wifi_hal.h. -/
def WIFI_ERROR_OUT_OF_MEMORY : Int := -9

/-- Constant `EPERM` from errno.h. -/
def EPERM : Int := 1

/-- Constant `NL_OK` from libnl handlers.h. -/
def NL_OK : Int := 0

/-- Constant `NL_SKIP` from libnl handlers.h. -/
def NL_SKIP : Int := 1

/-- Constant `NL80211_CMD_VENDOR` from nl80211.h (value 103). -/
def NL80211_CMD_VENDOR : Int := 103

/-- Constant `WIFI_HAL_CMD_SOCK_PORT` (wifi_hal.cpp line 53). -/
def WIFI_HAL_CMD_SOCK_PORT : Nat := 644

/-- Constant `WIFI_HAL_EVENT_SOCK_PORT` (wifi_hal.cpp line 54). -/
def WIFI_HAL_EVENT_SOCK_PORT : Nat := 645

/-- Constant `APF_ATTRIBUTE_VERSION` (first member of `enum wifi_apf_attr`). -/
def APF_ATTRIBUTE_VERSION : Nat := 0

/-- Constant `APF_ATTRIBUTE_MAX_LEN` (second member of `enum wifi_apf_attr`). -/
def APF_ATTRIBUTE_MAX_LEN : Nat := 1

/-- Constant `GOOGLE_OUI` (0x001A11, from common.h of the surrounding HAL). -/
def GOOGLE_OUI : Nat := 0x001A11

/-! ## wifi_socket_set_local_port (C9)

    void wifi_socket_set_local_port(struct nl_sock *sock, uint32_t port)
    \x7b
        uint32_t pid = getpid() & 0x3FFFFF;
        nl_socket_set_local_port(sock, pid + (port << 22));
    \x7d

All arithmetic is on `uint32_t`, so the shift and the addition are taken
modulo 2^32. -/
def wifi_socket_set_local_port (pid : Nat) (port : Nat) : Nat :=
  (((pid &&& 0x3FFFFF) % 2 ^ 32) + ((port <<< 22) % 2 ^ 32)) % 2 ^ 32

/-! ## wifi_configure_nd_offload (C6)

    wifi_error wifi_configure_nd_offload(wifi_interface_handle handle, u8 enable)
    \x7b
        SetNdoffloadCommand command(handle, enable);
        int ret = command.requestResponse();
        if (ret != WIFI_SUCCESS) \x7b
            if (ret == -EPERM) \x7b
                return WIFI_SUCCESS;
            \x7d
        \x7d
        return (wifi_error)ret;
    \x7d

`enable` is carried through `SetNdoffloadCommand` and does not affect the
result mapping; `ret` is the value returned by the underlying
`requestResponse`. -/
def wifi_configure_nd_offload (enable : Nat) (ret : Int) : Int :=
  let _ := enable
  if ret ≠ WIFI_SUCCESS then
    if ret = -EPERM then WIFI_SUCCESS
    else ret
  else ret

/-! ## wifi_get_packet_filter_capabilities (C10)

    wifi_error wifi_get_packet_filter_capabilities(wifi_interface_handle handle,
            u32 *version, u32 *max_len)
    \x7b
        AndroidPktFilterCommand *cmd = new AndroidPktFilterCommand(handle, version, max_len);
        NULL_CHECK_RETURN(cmd, "memory allocation failure", WIFI_ERROR_OUT_OF_MEMORY);
        wifi_error result = (wifi_error)cmd->start();
        if (result == WIFI_SUCCESS) \x7b ... \x7d else \x7b
            *version = 0; *max_len = 0; result = WIFI_SUCCESS;
        \x7d
        cmd->releaseRef();
        return result;
    \x7d

`allocOk` is whether `new` yields a non-null pointer; `startResult` is what
`cmd->start()` returns; `startVersion`/`startMaxLen` are the values the
command's `handleResponse` left in the output cells when `start` ran
(they only become visible on success); `v0`/`m0` are the prior contents of
the output cells. The embedding returns (wifi_error, *version, *max_len). -/
def wifi_get_packet_filter_capabilities (allocOk : Bool) (startResult : Int)
    (startVersion startMaxLen v0 m0 : Nat) : Int × Nat × Nat :=
  if allocOk = false then (WIFI_ERROR_OUT_OF_MEMORY, v0, m0)
  else if startResult = WIFI_SUCCESS then (WIFI_SUCCESS, startVersion, startMaxLen)
  else (WIFI_SUCCESS, 0, 0)

/-! ## wifi_event_loop (C4, C5) -/

/-- Constant `POLLIN` (poll.h). -/
def POLLIN : Nat := 0x001

/-- Constant `POLLERR` (poll.h). -/
def POLLERR : Nat := 0x008

/-- Constant `POLLHUP` (poll.h). -/
def POLLHUP : Nat := 0x010

/-- The session state fields of `hal_info` that wifi_event_loop and the
dispatch path touch.  `event_cb` holds the event registrations (see
`CbInfo` below); `num_cmd` counts registered commands. -/
structure HalInfo where
  in_event_loop : Bool
  clean_up : Bool
  num_event_cb : Nat
  num_cmd : Nat
  deriving Repr, DecidableEq

/-- The entry check of wifi_event_loop (lines 666-673):

    hal_info *info = getHalInfo(handle);
    if (info->in_event_loop) \x7b
        return;
    \x7d else \x7b
        info->in_event_loop = true;
    \x7d
    ... // poll loop

Returns the state as it stands when the poll loop would be entered, and
whether the poll loop is entered at all. -/
def wifi_event_loop_entry (info : HalInfo) : HalInfo × Bool :=
  if info.in_event_loop then (info, false)
  else ({ info with in_event_loop := true }, true)

/-- The branch taken by one iteration of the wifi_event_loop poll loop
(lines 690-713), as a function of poll's return value and the two revents
words.  The else-if chain of the source is reproduced in order. -/
inductive LoopAction where
  /-- Branch `result < 0`: log the poll error. -/
  | pollErrorLog
  /-- Branch on `pfd[0].revents & POLLERR`: read the event socket and log. -/
  | eventSockErrRead
  /-- Branch on `pfd[0].revents & POLLHUP`: `break` out of the loop. -/
  | hangupBreak
  /-- Branch on `pfd[0].revents & POLLIN`: run internal_pollin_handler. -/
  | pollinDispatch
  /-- Branch on `pfd[1].revents & POLLIN`: read the cleanup socket. -/
  | cleanupRead
  /-- final `else`: log the unknown event. -/
  | unknownLog
  deriving Repr, DecidableEq

/-- One iteration of the poll loop body:

    int result = TEMP_FAILURE_RETRY(poll(pfd, 2, timeout));
    if (result < 0) \x7b ALOGE(...); \x7d
    else if (pfd[0].revents & POLLERR) \x7b read(...); ALOGE(...); \x7d
    else if (pfd[0].revents & POLLHUP) \x7b ALOGE(...); break; \x7d
    else if (pfd[0].revents & POLLIN) \x7b internal_pollin_handler(handle); \x7d
    else if (pfd[1].revents & POLLIN) \x7b read(...); \x7d
    else \x7b ALOGE(...); \x7d
-/
def loopIteration (pollResult : Int) (revents0 revents1 : Nat) : LoopAction :=
  if pollResult < 0 then .pollErrorLog
  else if revents0 &&& POLLERR ≠ 0 then .eventSockErrRead
  else if revents0 &&& POLLHUP ≠ 0 then .hangupBreak
  else if revents0 &&& POLLIN ≠ 0 then .pollinDispatch
  else if revents1 &&& POLLIN ≠ 0 then .cleanupRead
  else .unknownLog

/-- Whether the iteration's branch executes `break`, leaving the `do/while`
loop and falling through to `internal_cleaned_up_handler(handle)` (the
teardown path, line 716). -/
def breaksLoop : LoopAction → Bool
  | .hangupBreak => true
  | _ => false

/-! ## wifi_initialize (C3)

The fallible steps of wifi_initialize (lines 483-579), in source order.
Each field records the outcome the environment hands the corresponding
call. Negative `family_id`, `*_mc_id` or `*_join` values are the failure
results of `genl_ctrl_resolve`, `wifi_get_multicast_id` and
`nl_socket_add_membership` respectively. -/
structure InitEnv where
  malloc_ok : Bool
  socketpair_ok : Bool
  cmd_sock_ok : Bool
  event_sock_ok : Bool
  ioctl_sock_ok : Bool
  cb_ok : Bool
  family_id : Int
  scan_mc_id : Int
  mlme_mc_id : Int
  regulatory_mc_id : Int
  vendor_mc_id : Int
  scan_join : Int
  mlme_join : Int
  regulatory_join : Int
  vendor_join : Int
  deriving Repr, DecidableEq

/-- wifi_add_membership (lines 581-596):

    int id = wifi_get_multicast_id(handle, "nl80211", group);
    if (id < 0) \x7b ALOGE(...); return id; \x7d
    int ret = nl_socket_add_membership(info->event_sock, id);
    if (ret < 0) \x7b ALOGE(...); \x7d
    return ret;
-/
def wifi_add_membership (mc_id : Int) (join_result : Int) : Int :=
  if mc_id < 0 then mc_id
  else join_result

/-- wifi_initialize (lines 483-579): each guarded step returns
WIFI_ERROR_UNKNOWN on failure; after the nl80211 family id resolves, the
four wifi_add_membership calls are made with their results discarded, and
the function returns WIFI_SUCCESS. -/
def wifi_initialize (e : InitEnv) : Int :=
  if e.malloc_ok = false then WIFI_ERROR_UNKNOWN
  else if e.socketpair_ok = false then WIFI_ERROR_UNKNOWN
  else if e.cmd_sock_ok = false then WIFI_ERROR_UNKNOWN
  else if e.event_sock_ok = false then WIFI_ERROR_UNKNOWN
  else if e.ioctl_sock_ok = false then WIFI_ERROR_UNKNOWN
  else if e.cb_ok = false then WIFI_ERROR_UNKNOWN
  else if e.family_id < 0 then WIFI_ERROR_UNKNOWN
  else
    let _ := wifi_add_membership e.scan_mc_id e.scan_join
    let _ := wifi_add_membership e.mlme_mc_id e.mlme_join
    let _ := wifi_add_membership e.regulatory_mc_id e.regulatory_join
    let _ := wifi_add_membership e.vendor_mc_id e.vendor_join
    WIFI_SUCCESS

/-! ## internal_valid_message_handler (C1, C2)

One entry of `info->event_cb` (`cb_info` from common.h): the registration
signature (`nl_cmd`, `vendor_id`, `vendor_subcmd`), whether `cb_func` is
non-null, and the bound command object (`cb_arg` viewed as a `WifiCommand*`,
`none` when NULL), identified here by an object id. -/
structure CbInfo where
  nl_cmd : Int
  vendor_id : Nat
  vendor_subcmd : Nat
  has_cb_func : Bool
  cmd : Option Nat
  deriving Repr, DecidableEq

/-- A received netlink event message as internal_valid_message_handler sees
it: the `event.parse()` result and the envelope fields.  The raw vendor
fields are the attribute values `NL80211_ATTR_VENDOR_ID` and
`NL80211_ATTR_VENDOR_SUBCMD` carried by the message. -/
structure EventMsg where
  parse_res : Int
  cmd : Int
  raw_vendor_id : Nat
  raw_subcmd : Nat
  deriving Repr, DecidableEq

/-- The local `vendor_id` of internal_valid_message_handler (line 740-744):
initialized to 0 and filled from the message only when
`cmd == NL80211_CMD_VENDOR`. -/
def msgVendorId (m : EventMsg) : Nat :=
  if m.cmd = NL80211_CMD_VENDOR then m.raw_vendor_id else 0

/-- The local `subcmd` of internal_valid_message_handler (line 741-745). -/
def msgSubcmd (m : EventMsg) : Nat :=
  if m.cmd = NL80211_CMD_VENDOR then m.raw_subcmd else 0

/-- The match condition of the dispatch scan (lines 757-764):
`cmd == info->event_cb[i].nl_cmd`, and not the vendor mismatch
`cmd == NL80211_CMD_VENDOR && (vendor_id != ... || subcmd != ...)` that
makes the loop `continue`. -/
def matchesCb (m : EventMsg) (cb : CbInfo) : Bool :=
  m.cmd == cb.nl_cmd &&
    !(m.cmd == NL80211_CMD_VENDOR &&
      (msgVendorId m != cb.vendor_id || msgSubcmd m != cb.vendor_subcmd))

/-- The observable actions internal_valid_message_handler performs on the
registry lock, the matched command's reference count, and the handler. -/
inductive DispatchAction where
  /-- Acquiring `info->cb_lock` (pthread_mutex_lock, line 754). -/
  | lock
  /-- Incrementing the reference count of command object `c`
  (`cmd->addRef()`, line 771). -/
  | addRef (c : Nat)
  /-- Releasing `info->cb_lock` (pthread_mutex_unlock, lines 774, 785). -/
  | unlock
  /-- Invoking registration `i`'s handler (`(*cb_func)(msg, cb_arg)`,
  line 776). -/
  | invoke (i : Nat)
  /-- Decrementing the reference count of command object `c`
  (`cmd->releaseRef()`, line 778). -/
  | releaseRef (c : Nat)
  deriving Repr, DecidableEq

/-- The action sequence of the matched branch (lines 766-781): addRef when
the bound command is non-null, unlock, invoke when cb_func is non-null,
releaseRef when the bound command is non-null. -/
def matchActions (i : Nat) (cb : CbInfo) : List DispatchAction :=
  (match cb.cmd with | some c => [.addRef c] | none => []) ++
    [.unlock] ++
    (if cb.has_cb_func then [.invoke i] else []) ++
    (match cb.cmd with | some c => [.releaseRef c] | none => [])

/-- The scan loop of internal_valid_message_handler (lines 756-783),
carrying the current index `i`.  On the first registration that matches it
performs `matchActions` and returns NL_OK; if no registration matches it
unlocks and returns NL_OK. -/
def scanCb (m : EventMsg) : Nat → List CbInfo → List DispatchAction × Int
  | _, [] => ([.unlock], NL_OK)
  | i, cb :: rest =>
    if matchesCb m cb then (matchActions i cb, NL_OK)
    else scanCb m (i + 1) rest

/-- internal_valid_message_handler (lines 727-787): parse failure returns
NL_SKIP without touching the registry; otherwise the lock is taken and the
scan runs. Returns the action trace and the handler's return value. -/
def internal_valid_message_handler (m : EventMsg) (cbs : List CbInfo) :
    List DispatchAction × Int :=
  if m.parse_res < 0 then ([], NL_SKIP)
  else (.lock :: (scanCb m 0 cbs).1, (scanCb m 0 cbs).2)

/-- Contribution of one dispatch action to command object `c`'s reference
count. -/
def refDelta (c : Nat) : DispatchAction → Int
  | .addRef c' => if c' = c then 1 else 0
  | .releaseRef c' => if c' = c then -1 else 0
  | _ => 0

/-- Reference count of command object `c` after the actions in `l` have
run, starting from `r0`. -/
def refCountAfter (c : Nat) (r0 : Int) (l : List DispatchAction) : Int :=
  r0 + (l.map (refDelta c)).sum

/-! ## AndroidPktFilterCommand::handleResponse (C7) -/

/-- Constant `GET_APF_CAPABILITIES` (first member of
`enum apf_request_type`). -/
def GET_APF_CAPABILITIES : Nat := 0

/-- A vendor reply as AndroidPktFilterCommand::handleResponse inspects it:
the envelope command, the `NL80211_ATTR_VENDOR_DATA` attribute (`none` for
NULL) holding its nested attributes as (attribute id, u32 value) pairs,
and `get_vendor_data_len()`. -/
structure ApfReply where
  cmd : Int
  vendor_data : Option (List (Nat × Nat))
  vendor_data_len : Nat
  deriving Repr, DecidableEq

/-- One step of the `nl_iterator` loop of handleResponse in
GET_APF_CAPABILITIES mode (lines 272-283): an APF_ATTRIBUTE_VERSION
attribute overwrites `*mVersion`, an APF_ATTRIBUTE_MAX_LEN attribute
overwrites `*mMaxLen`, every other attribute id is skipped. -/
def apfCapsStep (acc : Nat × Nat) (a : Nat × Nat) : Nat × Nat :=
  if a.1 = APF_ATTRIBUTE_VERSION then (a.2, acc.2)
  else if a.1 = APF_ATTRIBUTE_MAX_LEN then (acc.1, a.2)
  else acc

/-- AndroidPktFilterCommand::handleResponse (lines 249-292), restricted to
the state it writes through `mVersion`/`mMaxLen`.  `version`/`maxLen` are
the prior contents of those output cells; the result is the handler's
return value together with the new contents.  In GET_APF_CAPABILITIES mode
the outputs are zeroed and then filled by the attribute loop; in the other
modes they are untouched. -/
def AndroidPktFilterCommand.handleResponse (reqType : Nat) (reply : ApfReply)
    (version maxLen : Nat) : Int × Nat × Nat :=
  if reply.cmd ≠ NL80211_CMD_VENDOR then (NL_SKIP, version, maxLen)
  else
    match reply.vendor_data with
    | none => (NL_SKIP, version, maxLen)
    | some attrs =>
      if reply.vendor_data_len = 0 then (NL_SKIP, version, maxLen)
      else if reqType = GET_APF_CAPABILITIES then
        let r := attrs.foldl apfCapsStep (0, 0)
        (NL_OK, r.1, r.2)
      else (NL_OK, version, maxLen)

/-- Value of the last attribute with id `t` in `attrs`, or `d` when no such
attribute occurs (helper for reasoning about the attribute loop). -/
def lastWithId (t : Nat) (d : Nat) (attrs : List (Nat × Nat)) : Nat :=
  attrs.foldl (fun acc a => if a.1 = t then a.2 else acc) d

/-! ## SetRSSIMonitorCommand::cancel (C8) -/

/-- Constant `WIFI_RSSI_REPORT_EVENT`.  Modelled from the spec: the
numeric value lives in common.h, which is not among the provided sources;
the development uses it only as a fixed event signature, so any fixed
value is faithful. -/
def WIFI_RSSI_REPORT_EVENT : Nat := 4

/-- State visible to SetRSSIMonitorCommand::cancel: the vendor event
registration table (a list of (vendor id, vendor subcommand) signatures,
spec section 4.3) and the driver-side RSSI-monitoring configuration that
the disable request (max 0, min 0, start 0) addresses. -/
structure RssiMonitorState where
  registrations : List (Nat × Nat)
  driver_max_rssi : Int
  driver_min_rssi : Int
  driver_started : Bool
  deriving Repr, DecidableEq

/-- Modelled from the spec: `unregisterVendorHandler` is defined in the
HAL's common.cpp, which is not among the provided sources; per spec
section 4.3 (`unregister_event_handler(signature)`) it removes the
registration with the given (vendor id, vendor subcommand) signature from
the event table. -/
def unregisterVendorHandler (sig : Nat × Nat) (regs : List (Nat × Nat)) :
    List (Nat × Nat) :=
  regs.filter (fun r => !(r == sig))

/-- SetRSSIMonitorCommand::cancel (lines 994-1008): build the disable
request (`createRequest(request, 0)`, zeroed thresholds and start = 0),
deliver it with requestResponse, unregister the (GOOGLE_OUI,
WIFI_RSSI_REPORT_EVENT) vendor handler, and return WIFI_SUCCESS
unconditionally.  `deliverOk` is whether building and delivering the
request succeeded; the driver effect of a delivered disable request is
modelled from the spec (section 4.2 send_and_wait): monitoring stops and
the zeroed thresholds are recorded. -/
def SetRSSIMonitorCommand.cancel (deliverOk : Bool) (s : RssiMonitorState) :
    RssiMonitorState × Int :=
  let s1 := if deliverOk then
      { s with driver_max_rssi := 0, driver_min_rssi := 0, driver_started := false }
    else s
  let s2 := { s1 with registrations :=
      unregisterVendorHandler (GOOGLE_OUI, WIFI_RSSI_REPORT_EVENT) s1.registrations }
  (s2, WIFI_SUCCESS)

end WifiHal

namespace WifiHal

/-- C9: the derived local port is exactly `(pid & 0x3FFFFF) + (port << 22)`
(no 32-bit wrap-around occurs for the two seeds used), and the command-socket
seed 644 and event-socket seed 645 produce distinct ports for every pid. -/
theorem socket_local_ports_distinct (pid : Nat) :
    wifi_socket_set_local_port pid WIFI_HAL_CMD_SOCK_PORT
      = (pid &&& 0x3FFFFF) + 644 * 2 ^ 22 ∧
    wifi_socket_set_local_port pid WIFI_HAL_EVENT_SOCK_PORT
      = (pid &&& 0x3FFFFF) + 645 * 2 ^ 22 ∧
    wifi_socket_set_local_port pid WIFI_HAL_CMD_SOCK_PORT
      ≠ wifi_socket_set_local_port pid WIFI_HAL_EVENT_SOCK_PORT := by
  have hle : pid &&& 0x3FFFFF ≤ 0x3FFFFF := Nat.and_le_right
  unfold wifi_socket_set_local_port WIFI_HAL_CMD_SOCK_PORT WIFI_HAL_EVENT_SOCK_PORT
  have h644 : (644 <<< 22) % 2 ^ 32 = 644 * 2 ^ 22 := by decide
  have h645 : (645 <<< 22) % 2 ^ 32 = 645 * 2 ^ 22 := by decide
  rw [h644, h645]
  have hmod : (pid &&& 0x3FFFFF) % 2 ^ 32 = pid &&& 0x3FFFFF :=
    Nat.mod_eq_of_lt (by omega)
  rw [hmod]
  refine ⟨Nat.mod_eq_of_lt (by omega), Nat.mod_eq_of_lt (by omega), ?_⟩
  rw [Nat.mod_eq_of_lt (by omega), Nat.mod_eq_of_lt (by omega)]
  omega

/-- C6: wifi_configure_nd_offload maps an underlying result of `-EPERM` to
`WIFI_SUCCESS`, and returns every other underlying result unchanged (cast to
wifi_error), for every enable value. -/
theorem nd_offload_eperm_mapped (enable : Nat) (ret : Int) :
    (ret = -EPERM → wifi_configure_nd_offload enable ret = WIFI_SUCCESS) ∧
    (ret ≠ -EPERM → wifi_configure_nd_offload enable ret = ret) := by
  constructor
  · intro h
    simp [wifi_configure_nd_offload, h, EPERM, WIFI_SUCCESS]
  · intro h
    unfold wifi_configure_nd_offload
    split
    · simp [h]
    · rfl

/-- Witness for `nd_offload_eperm_mapped` at enable = 1, ret = -1. -/
theorem nd_offload_eperm_mapped_witness :
    wifi_configure_nd_offload 1 (-1) = WIFI_SUCCESS :=
  (nd_offload_eperm_mapped 1 (-1)).1 (by decide)

/-- C10: whenever allocation of the command object succeeds,
wifi_get_packet_filter_capabilities returns WIFI_SUCCESS; when start()
returns non-success it writes 0 into both outputs (and still returns
WIFI_SUCCESS); the only error it can return is WIFI_ERROR_OUT_OF_MEMORY,
on allocation failure. -/
theorem get_packet_filter_capabilities_swallows_failure (startResult : Int)
    (startVersion startMaxLen v0 m0 : Nat) :
    ((wifi_get_packet_filter_capabilities true startResult
        startVersion startMaxLen v0 m0).1 = WIFI_SUCCESS) ∧
    (startResult ≠ WIFI_SUCCESS →
      wifi_get_packet_filter_capabilities true startResult
        startVersion startMaxLen v0 m0 = (WIFI_SUCCESS, 0, 0)) ∧
    (∀ r, (wifi_get_packet_filter_capabilities false startResult
        startVersion startMaxLen v0 m0).1 = r → r = WIFI_ERROR_OUT_OF_MEMORY) := by
  refine ⟨?_, ?_, ?_⟩
  · unfold wifi_get_packet_filter_capabilities
    split
    · simp_all
    · split <;> rfl
  · intro h
    simp [wifi_get_packet_filter_capabilities, h]
  · intro r hr
    simpa [wifi_get_packet_filter_capabilities] using hr.symm

/-- Witness for `get_packet_filter_capabilities_swallows_failure`:
start() fails with -1, outputs are zeroed, result is WIFI_SUCCESS. -/
theorem get_packet_filter_capabilities_swallows_failure_witness :
    wifi_get_packet_filter_capabilities true (-1) 7 9 3 4 = (WIFI_SUCCESS, 0, 0) :=
  (get_packet_filter_capabilities_swallows_failure (-1) 7 9 3 4).2.1 (by decide)

/-- C5: calling wifi_event_loop with `in_event_loop` already true returns
immediately without entering the poll loop and without changing any session
state; when the flag is false, it is set to true before the poll loop is
entered. -/
theorem event_loop_reentry_noop (info : HalInfo) :
    (info.in_event_loop = true → wifi_event_loop_entry info = (info, false)) ∧
    (info.in_event_loop = false →
      wifi_event_loop_entry info = ({ info with in_event_loop := true }, true)) := by
  constructor
  · intro h
    simp [wifi_event_loop_entry, h]
  · intro h
    simp [wifi_event_loop_entry, h]

/-- Witness for `event_loop_reentry_noop` on a concrete running session. -/
theorem event_loop_reentry_noop_witness :
    wifi_event_loop_entry ⟨true, false, 2, 1⟩ = (⟨true, false, 2, 1⟩, false) :=
  (event_loop_reentry_noop ⟨true, false, 2, 1⟩).1 rfl

/-- C4 counterexample: when poll reports POLLERR and POLLHUP together on the
event socket, the iteration takes the POLLERR branch (logs and continues);
the loop does NOT terminate although a hang-up condition is reported, so
"if the event socket reports POLLHUP the loop terminates" is false as
stated. -/
theorem hangup_with_pollerr_does_not_break :
    (POLLERR ||| POLLHUP) &&& POLLHUP ≠ 0 ∧
    loopIteration 1 (POLLERR ||| POLLHUP) 0 = .eventSockErrRead ∧
    breaksLoop (loopIteration 1 (POLLERR ||| POLLHUP) 0) = false := by
  refine ⟨by decide, by decide, by decide⟩

/-- C4 amended: a poll error or a POLLERR report never breaks the loop; a
POLLHUP report breaks it (running teardown) exactly when POLLERR is not
reported at the same time; `break` is reached only in the POLLHUP branch. -/
theorem event_loop_break_only_on_hangup (pollResult : Int) (revents0 revents1 : Nat) :
    (pollResult < 0 → breaksLoop (loopIteration pollResult revents0 revents1) = false) ∧
    (revents0 &&& POLLERR ≠ 0 →
      breaksLoop (loopIteration pollResult revents0 revents1) = false) ∧
    (0 ≤ pollResult → revents0 &&& POLLERR = 0 → revents0 &&& POLLHUP ≠ 0 →
      loopIteration pollResult revents0 revents1 = .hangupBreak) ∧
    (breaksLoop (loopIteration pollResult revents0 revents1) = true →
      revents0 &&& POLLHUP ≠ 0 ∧ revents0 &&& POLLERR = 0 ∧ 0 ≤ pollResult) := by
  refine ⟨?_, ?_, ?_, ?_⟩
  · intro h
    simp [loopIteration, h, breaksLoop]
  · intro h
    unfold loopIteration
    split
    · rfl
    · simp [h, breaksLoop]
  · intro h1 h2 h3
    simp [loopIteration, h2, h3, not_lt.mpr h1]
  · intro h
    unfold loopIteration at h
    by_cases hp : pollResult < 0
    · simp [hp, breaksLoop] at h
    · by_cases he : revents0 &&& POLLERR ≠ 0
      · simp [hp, he, breaksLoop] at h
      · by_cases hh : revents0 &&& POLLHUP ≠ 0
        · exact ⟨hh, by simpa using he, not_lt.mp hp⟩
        · by_cases hi : revents0 &&& POLLIN ≠ 0
          · simp [hp, he, hh, hi, breaksLoop] at h
          · by_cases hj : revents1 &&& POLLIN ≠ 0
            · simp [hp, he, hh, hi, hj, breaksLoop] at h
            · simp [hp, he, hh, hi, hj, breaksLoop] at h

/-- Witness for `event_loop_break_only_on_hangup`: a clean POLLHUP breaks. -/
theorem event_loop_break_only_on_hangup_witness :
    loopIteration 1 POLLHUP 0 = .hangupBreak :=
  (event_loop_break_only_on_hangup 1 POLLHUP 0).2.2.1 (by decide) (by decide) (by decide)

/-- C3 counterexample: an environment where everything succeeds except that
the "scan" multicast group cannot be resolved (`wifi_get_multicast_id`
returns -2).  wifi_initialize still returns WIFI_SUCCESS, so an unresolved
multicast group is NOT fatal to initialization, refuting the claim as
stated. -/
theorem initialize_succeeds_despite_unresolved_group :
    (InitEnv.mk true true true true true true 28 (-2) 1 2 3 0 0 0 0).scan_mc_id < 0 ∧
    wifi_initialize (InitEnv.mk true true true true true true 28 (-2) 1 2 3 0 0 0 0)
      = WIFI_SUCCESS := by
  refine ⟨by decide, by decide⟩

/-- C3 amended: an unresolved nl80211 family id is fatal — wifi_initialize
never returns WIFI_SUCCESS when `genl_ctrl_resolve` fails — but the results
of resolving and joining the four multicast groups (scan, mlme, regulatory,
vendor) are discarded: whenever every step up to family resolution
succeeds, wifi_initialize returns WIFI_SUCCESS regardless of the
multicast-group outcomes. -/
theorem initialize_family_fatal_groups_ignored (e : InitEnv) :
    (e.family_id < 0 → wifi_initialize e ≠ WIFI_SUCCESS) ∧
    (e.malloc_ok = true → e.socketpair_ok = true → e.cmd_sock_ok = true →
      e.event_sock_ok = true → e.ioctl_sock_ok = true → e.cb_ok = true →
      0 ≤ e.family_id → wifi_initialize e = WIFI_SUCCESS) := by
  constructor
  · intro h
    unfold wifi_initialize
    split
    · decide
    · split
      · decide
      · split
        · decide
        · split
          · decide
          · split
            · decide
            · split
              · decide
              · simp [h, WIFI_ERROR_UNKNOWN, WIFI_SUCCESS]
  · intro h1 h2 h3 h4 h5 h6 h7
    simp [ wifi_initialize, h1, h2, h3, h4, h5, h6, not_lt.mpr h7]

/-- Witness for `initialize_family_fatal_groups_ignored`: family resolution
failure yields a non-success result. -/
theorem initialize_family_fatal_groups_ignored_witness :
    wifi_initialize (InitEnv.mk true true true true true true (-1) 1 1 1 1 0 0 0 0)
      ≠ WIFI_SUCCESS :=
  (initialize_family_fatal_groups_ignored
    (InitEnv.mk true true true true true true (-1) 1 1 1 1 0 0 0 0)).1 (by decide)

/-- A handler invocation can only appear in `matchActions i cb` with index
`i`, and only when the registration's cb_func is non-null. -/
theorem matchActions_invoke_mem {i j : Nat} {cb : CbInfo}
    (h : DispatchAction.invoke j ∈ matchActions i cb) :
    j = i ∧ cb.has_cb_func = true := by
  unfold matchActions at h
  rcases hcmd : cb.cmd with _ | c <;> rcases hf : cb.has_cb_func <;>
    simp [hcmd, hf] at h <;> simp [h]

/-- Characterization of an invocation produced by the scan loop started at
index `k`: the invoked index points at a matching registration with a
non-null cb_func, and every earlier registration fails the match. -/
theorem scanCb_invoke (m : EventMsg) :
    ∀ (cbs : List CbInfo) (k j : Nat),
      DispatchAction.invoke j ∈ (scanCb m k cbs).1 →
      k ≤ j ∧ ∃ cb, cbs[j - k]? = some cb ∧ matchesCb m cb = true ∧
        cb.has_cb_func = true ∧
        ∀ l cb', l < j - k → cbs[l]? = some cb' → matchesCb m cb' = false := by
  intro cbs
  induction cbs with
  | nil =>
    intro k j h
    simp [scanCb] at h
  | cons hd rest ih =>
    intro k j h
    unfold scanCb at h
    by_cases hm : matchesCb m hd
    · rw [if_pos hm] at h
      obtain ⟨hj, hf⟩ := matchActions_invoke_mem h
      subst hj
      refine ⟨le_refl _, hd, ?_, hm, hf, ?_⟩
      · simp
      · intro l cb' hl
        omega
    · rw [if_neg hm] at h
      obtain ⟨hk, cb, hget, hmatch, hf, hfirst⟩ := ih (k + 1) j h
      refine ⟨by omega, cb, ?_, hmatch, hf, ?_⟩
      · have : j - k = (j - (k + 1)) + 1 := by omega
        rw [this]
        simpa using hget
      · intro l cb' hl hget'
        match l, hget' with
        | 0, hget' =>
          simp at hget'
          subst hget'
          simpa using hm
        | l' + 1, hget' =>
          simp at hget'
          exact hfirst l' cb' (by omega) hget'

/-- A match in the source's sense forces the exact signature equalities. -/
theorem matchesCb_eq {m : EventMsg} {cb : CbInfo} (h : matchesCb m cb = true) :
    cb.nl_cmd = m.cmd ∧
    (m.cmd = NL80211_CMD_VENDOR →
      cb.vendor_id = msgVendorId m ∧ cb.vendor_subcmd = msgSubcmd m) := by
  unfold matchesCb at h
  simp only [Bool.and_eq_true, beq_iff_eq, Bool.not_eq_true', Bool.and_eq_false_iff,
    Bool.or_eq_false_iff, bne_eq_false_iff_eq] at h
  obtain ⟨h1, h2⟩ := h
  refine ⟨h1.symm, ?_⟩
  intro hv
  rcases h2 with h2 | h2
  · exact absurd hv (by simpa using h2)
  · exact ⟨h2.1.symm, h2.2.symm⟩

/-- C1: internal_valid_message_handler invokes a registration's handler only
when the registration's nl_cmd equals the message's command and, for
NL80211_CMD_VENDOR messages, the registration's vendor id and vendor
subcommand both equal the message's; every registration before the invoked
one fails the match, and no other registration is invoked (dispatch stops
at the first match), so an event carrying one vendor (id, subcmd) pair is
never delivered to a registration for a different pair. -/
theorem dispatch_first_exact_match (m : EventMsg) (cbs : List CbInfo) (j : Nat)
    (h : DispatchAction.invoke j ∈ (internal_valid_message_handler m cbs).1) :
    ∃ cb, cbs[j]? = some cb ∧
      cb.nl_cmd = m.cmd ∧
      (m.cmd = NL80211_CMD_VENDOR →
        cb.vendor_id = msgVendorId m ∧ cb.vendor_subcmd = msgSubcmd m) ∧
      (∀ l cb', l < j → cbs[l]? = some cb' → matchesCb m cb' = false) ∧
      (∀ j', DispatchAction.invoke j' ∈ (internal_valid_message_handler m cbs).1 →
        j' = j) := by
  have hmem : ∀ j', DispatchAction.invoke j' ∈ (internal_valid_message_handler m cbs).1 →
      DispatchAction.invoke j' ∈ (scanCb m 0 cbs).1 := by
    intro j' hj'
    unfold internal_valid_message_handler at hj'
    by_cases hp : m.parse_res < 0
    · simp [hp] at hj'
    · rw [if_neg hp] at hj'
      simp only [List.mem_cons] at hj'
      rcases hj' with hj' | hj'
      · cases hj'
      · exact hj'
  obtain ⟨-, cb, hget, hmatch, -, hfirst⟩ := scanCb_invoke m cbs 0 j (hmem j h)
  simp only [Nat.sub_zero] at hget hfirst
  obtain ⟨hcmd, hvendor⟩ := matchesCb_eq hmatch
  refine ⟨cb, hget, hcmd, hvendor, hfirst, ?_⟩
  intro j' hj'
  obtain ⟨-, cb', hget', hmatch', -, hfirst'⟩ := scanCb_invoke m cbs 0 j' (hmem j' hj')
  simp only [Nat.sub_zero] at hget' hfirst'
  by_contra hne
  rcases Nat.lt_or_ge j' j with hlt | hge
  · have := hfirst j' cb' hlt hget'
    rw [this] at hmatch'
    cases hmatch'
  · have hlt : j < j' := by omega
    have := hfirst' j cb hlt hget
    rw [this] at hmatch
    cases hmatch

/-- Witness for `dispatch_first_exact_match`: a vendor event (id 6666,
subcmd 5) dispatched over a single matching registration invokes index 0. -/
theorem dispatch_first_exact_match_witness :
    ∃ cb, ([⟨103, 6666, 5, true, some 7⟩] : List CbInfo)[0]? = some cb ∧
      cb.nl_cmd = (⟨0, 103, 6666, 5⟩ : EventMsg).cmd ∧
      ((⟨0, 103, 6666, 5⟩ : EventMsg).cmd = NL80211_CMD_VENDOR →
        cb.vendor_id = msgVendorId ⟨0, 103, 6666, 5⟩ ∧
        cb.vendor_subcmd = msgSubcmd ⟨0, 103, 6666, 5⟩) ∧
      (∀ l cb', l < 0 → ([⟨103, 6666, 5, true, some 7⟩] : List CbInfo)[l]? = some cb' →
        matchesCb ⟨0, 103, 6666, 5⟩ cb' = false) ∧
      (∀ j', DispatchAction.invoke j' ∈
          (internal_valid_message_handler ⟨0, 103, 6666, 5⟩
            [⟨103, 6666, 5, true, some 7⟩]).1 → j' = 0) :=
  dispatch_first_exact_match ⟨0, 103, 6666, 5⟩ [⟨103, 6666, 5, true, some 7⟩] 0
    (by decide)

/-- When the first match sits at index `i`, the scan loop started at `k`
performs exactly the matched branch's actions for index `k + i`. -/
theorem scanCb_first_match_eq (m : EventMsg) :
    ∀ (cbs : List CbInfo) (k i : Nat) (cb : CbInfo),
      cbs[i]? = some cb → matchesCb m cb = true →
      (∀ l cb', l < i → cbs[l]? = some cb' → matchesCb m cb' = false) →
      scanCb m k cbs = (matchActions (k + i) cb, NL_OK) := by
  intro cbs
  induction cbs with
  | nil =>
    intro k i cb hget
    simp at hget
  | cons hd rest ih =>
    intro k i cb hget hmatch hfirst
    match i, hget with
    | 0, hget =>
      simp at hget
      subst hget
      simp [scanCb, hmatch]
    | i' + 1, hget =>
      simp at hget
      have hhd : matchesCb m hd = false := by
        have := hfirst 0 hd (by omega) (by simp)
        exact this
      have hrest : ∀ l cb', l < i' → rest[l]? = some cb' → matchesCb m cb' = false := by
        intro l cb' hl hget'
        exact hfirst (l + 1) cb' (by omega) (by simpa using hget')
      have := ih (k + 1) i' cb hget hmatch hrest
      unfold scanCb
      rw [if_neg (by simp [hhd]), this]
      have harith : k + 1 + i' = k + (i' + 1) := by omega
      rw [harith]

/-- C2: when dispatch matches registration `i` whose bound command object
`c` is non-null and whose cb_func is non-null, the action trace is exactly
lock, addRef c, unlock, invoke i, releaseRef c: the reference count is
incremented before the lock is released and the handler invoked, during
the handler invocation it equals one more than it was before dispatch, and
it is decremented back only after the handler returns, ending at its
original value. -/
theorem dispatch_refcount_guard (m : EventMsg) (cbs : List CbInfo) (i : Nat)
    (cb : CbInfo) (c : Nat) (r0 : Int)
    (hp : 0 ≤ m.parse_res)
    (hi : cbs[i]? = some cb)
    (hm : matchesCb m cb = true)
    (hfirst : ∀ l cb', l < i → cbs[l]? = some cb' → matchesCb m cb' = false)
    (hc : cb.cmd = some c)
    (hf : cb.has_cb_func = true) :
    (internal_valid_message_handler m cbs).1 =
      [.lock, .addRef c, .unlock, .invoke i, .releaseRef c] ∧
    refCountAfter c r0 (((internal_valid_message_handler m cbs).1).take 3) = r0 + 1 ∧
    refCountAfter c r0 ((internal_valid_message_handler m cbs).1) = r0 := by
  have hscan := scanCb_first_match_eq m cbs 0 i cb hi hm hfirst
  have htrace : (internal_valid_message_handler m cbs).1 =
      [.lock, .addRef c, .unlock, .invoke i, .releaseRef c] := by
    unfold internal_valid_message_handler
    rw [if_neg (by omega)]
    rw [hscan]
    simp [matchActions, hc, hf]
  refine ⟨htrace, ?_, ?_⟩
  · rw [htrace]
    simp [refCountAfter, refDelta]
  · rw [htrace]
    simp [refCountAfter, refDelta]

/-- Witness for `dispatch_refcount_guard`: the vendor event of the C1
witness dispatched to a registration bound to command object 7, starting
from reference count 2. -/
theorem dispatch_refcount_guard_witness :
    (internal_valid_message_handler ⟨0, 103, 6666, 5⟩
        [⟨103, 6666, 5, true, some 7⟩]).1 =
      [.lock, .addRef 7, .unlock, .invoke 0, .releaseRef 7] ∧
    refCountAfter 7 2 (((internal_valid_message_handler ⟨0, 103, 6666, 5⟩
        [⟨103, 6666, 5, true, some 7⟩]).1).take 3) = 2 + 1 ∧
    refCountAfter 7 2 ((internal_valid_message_handler ⟨0, 103, 6666, 5⟩
        [⟨103, 6666, 5, true, some 7⟩]).1) = 2 :=
  dispatch_refcount_guard ⟨0, 103, 6666, 5⟩ [⟨103, 6666, 5, true, some 7⟩] 0
    ⟨103, 6666, 5, true, some 7⟩ 7 2 (by decide) (by decide) (by decide)
    (fun l cb' hl _ => absurd hl (Nat.not_lt_zero l)) (by decide) (by decide)

/-- The attribute loop updates the two output cells independently: the
first component tracks the last APF_ATTRIBUTE_VERSION value and the second
the last APF_ATTRIBUTE_MAX_LEN value. -/
theorem apf_fold_split (attrs : List (Nat × Nat)) :
    ∀ v w, attrs.foldl apfCapsStep (v, w) =
      (lastWithId APF_ATTRIBUTE_VERSION v attrs,
       lastWithId APF_ATTRIBUTE_MAX_LEN w attrs) := by
  induction attrs with
  | nil => intro v w; simp [lastWithId]
  | cons a rest ih =>
    intro v w
    simp only [List.foldl_cons, lastWithId, apfCapsStep]
    by_cases h0 : a.1 = APF_ATTRIBUTE_VERSION
    · have h1 : a.1 ≠ APF_ATTRIBUTE_MAX_LEN := by
        rw [h0]; decide
      rw [if_pos h0]
      simpa [lastWithId, h0, h1] using ih a.2 w
    · by_cases h1 : a.1 = APF_ATTRIBUTE_MAX_LEN
      · rw [if_neg h0, if_pos h1]
        simpa [lastWithId, h0, h1] using ih v a.2
      · rw [if_neg h0, if_neg h1]
        simpa [lastWithId, h0, h1] using ih v w

/-- If no attribute in the region carries id `t`, the loop leaves the
corresponding output at its initial value. -/
theorem lastWithId_of_not_mem (t d : Nat) (attrs : List (Nat × Nat))
    (h : ∀ x ∈ attrs, x.1 ≠ t) : lastWithId t d attrs = d := by
  induction attrs generalizing d with
  | nil => simp [lastWithId]
  | cons a rest ih =>
    have ha : a.1 ≠ t := h a (by simp)
    simp only [lastWithId, List.foldl_cons, if_neg ha]
    exact ih d (fun x hx => h x (by simp [hx]))

/-- If id `t` occurs exactly once in the region, with value `x`, the loop
leaves `x` in the corresponding output. -/
theorem lastWithId_of_single (t x d : Nat) (attrs : List (Nat × Nat))
    (hmem : (t, x) ∈ attrs)
    (hcount : attrs.countP (fun a => a.1 == t) = 1) :
    lastWithId t d attrs = x := by
  induction attrs generalizing d with
  | nil => simp at hmem
  | cons a rest ih =>
    rw [List.countP_cons] at hcount
    by_cases ha : a.1 = t
    · have hb : (a.1 == t) = true := beq_iff_eq.mpr ha
      rw [hb] at hcount
      have hz : rest.countP (fun a => a.1 == t) = 0 := by
        simpa using hcount
      have hnone : ∀ y ∈ rest, y.1 ≠ t := by
        intro y hy
        have := List.countP_eq_zero.mp hz y hy
        simpa using this
      have hax : a = (t, x) := by
        rcases List.mem_cons.mp hmem with h | h
        · exact h.symm
        · exact absurd rfl (hnone (t, x) h)
      simp only [lastWithId, List.foldl_cons, if_pos ha]
      have := lastWithId_of_not_mem t a.2 rest hnone
      rw [lastWithId] at this
      rw [this, hax]
    · have hb : (a.1 == t) = false := by
        simpa using ha
      rw [hb] at hcount
      have hmem' : (t, x) ∈ rest := by
        rcases List.mem_cons.mp hmem with h | h
        · subst h
          simp at ha
        · exact h
      have hcount' : rest.countP (fun a => a.1 == t) = 1 := by
        simpa using hcount
      simp only [lastWithId, List.foldl_cons, if_neg ha]
      exact ih d hmem' hcount'

/-- C7: in GET_APF_CAPABILITIES mode, for a vendor reply with non-null,
non-empty vendor data, handleResponse returns NL_OK and stores into
*mVersion and *mMaxLen exactly the APF_ATTRIBUTE_VERSION and
APF_ATTRIBUTE_MAX_LEN values present in the reply (each taken from its
unique occurrence), 0 for an output whose attribute is absent; every other
attribute id is skipped. -/
theorem apf_get_capabilities_outputs (reply : ApfReply)
    (attrs : List (Nat × Nat)) (v0 m0 : Nat)
    (hcmd : reply.cmd = NL80211_CMD_VENDOR)
    (hvd : reply.vendor_data = some attrs)
    (hlen : reply.vendor_data_len ≠ 0) :
    (AndroidPktFilterCommand.handleResponse GET_APF_CAPABILITIES reply v0 m0).1
      = NL_OK ∧
    (∀ v, (APF_ATTRIBUTE_VERSION, v) ∈ attrs →
      attrs.countP (fun a => a.1 == APF_ATTRIBUTE_VERSION) = 1 →
      (AndroidPktFilterCommand.handleResponse GET_APF_CAPABILITIES reply
        v0 m0).2.1 = v) ∧
    ((∀ x ∈ attrs, x.1 ≠ APF_ATTRIBUTE_VERSION) →
      (AndroidPktFilterCommand.handleResponse GET_APF_CAPABILITIES reply
        v0 m0).2.1 = 0) ∧
    (∀ w, (APF_ATTRIBUTE_MAX_LEN, w) ∈ attrs →
      attrs.countP (fun a => a.1 == APF_ATTRIBUTE_MAX_LEN) = 1 →
      (AndroidPktFilterCommand.handleResponse GET_APF_CAPABILITIES reply
        v0 m0).2.2 = w) ∧
    ((∀ x ∈ attrs, x.1 ≠ APF_ATTRIBUTE_MAX_LEN) →
      (AndroidPktFilterCommand.handleResponse GET_APF_CAPABILITIES reply
        v0 m0).2.2 = 0) := by
  have hout : AndroidPktFilterCommand.handleResponse GET_APF_CAPABILITIES reply v0 m0
      = (NL_OK, lastWithId APF_ATTRIBUTE_VERSION 0 attrs,
          lastWithId APF_ATTRIBUTE_MAX_LEN 0 attrs) := by
    unfold AndroidPktFilterCommand.handleResponse
    rw [if_neg (by simp [hcmd]), hvd]
    simp only [if_neg hlen, if_pos rfl, if_true]
    rw [apf_fold_split attrs 0 0]
  rw [hout]
  refine ⟨rfl, ?_, ?_, ?_, ?_⟩
  · intro v hv hc
    exact lastWithId_of_single _ v 0 attrs hv hc
  · intro h
    exact lastWithId_of_not_mem _ 0 attrs h
  · intro w hw hc
    exact lastWithId_of_single _ w 0 attrs hw hc
  · intro h
    exact lastWithId_of_not_mem _ 0 attrs h

/-- Witness for `apf_get_capabilities_outputs`: a crafted vendor reply with
attributes (version = 3, max_len = 2048) yields NL_OK, *mVersion = 3,
*mMaxLen = 2048. -/
theorem apf_get_capabilities_outputs_witness :
    (AndroidPktFilterCommand.handleResponse GET_APF_CAPABILITIES
      ⟨103, some [(0, 3), (1, 2048)], 16⟩ 0 0).1 = NL_OK ∧
    (AndroidPktFilterCommand.handleResponse GET_APF_CAPABILITIES
      ⟨103, some [(0, 3), (1, 2048)], 16⟩ 0 0).2.1 = 3 ∧
    (AndroidPktFilterCommand.handleResponse GET_APF_CAPABILITIES
      ⟨103, some [(0, 3), (1, 2048)], 16⟩ 0 0).2.2 = 2048 :=
  ⟨(apf_get_capabilities_outputs ⟨103, some [(0, 3), (1, 2048)], 16⟩
      [(0, 3), (1, 2048)] 0 0 rfl rfl (by decide)).1,
   (apf_get_capabilities_outputs ⟨103, some [(0, 3), (1, 2048)], 16⟩
      [(0, 3), (1, 2048)] 0 0 rfl rfl (by decide)).2.1 3 (by decide) (by decide),
   (apf_get_capabilities_outputs ⟨103, some [(0, 3), (1, 2048)], 16⟩
      [(0, 3), (1, 2048)] 0 0 rfl rfl (by decide)).2.2.2.1 2048 (by decide)
      (by decide)⟩

/-- C8: SetRSSIMonitorCommand::cancel returns WIFI_SUCCESS on every call,
and calling it again on an already-cancelled command leaves the event
registration table and the driver-side monitoring state exactly as the
first call left them, whether or not the second disable request is
delivered. -/
theorem rssi_cancel_idempotent (d1 d2 : Bool) (s : RssiMonitorState) :
    (SetRSSIMonitorCommand.cancel d1 s).2 = WIFI_SUCCESS ∧
    (SetRSSIMonitorCommand.cancel d2
      (SetRSSIMonitorCommand.cancel true s).1).2 = WIFI_SUCCESS ∧
    (SetRSSIMonitorCommand.cancel d2
      (SetRSSIMonitorCommand.cancel true s).1).1 =
      (SetRSSIMonitorCommand.cancel true s).1 := by
  refine ⟨rfl, rfl, ?_⟩
  cases d2 <;>
    simp [SetRSSIMonitorCommand.cancel, unregisterVendorHandler, List.filter_filter]

end WifiHal
